import Mathlib

/-!
# The libretro environment bridge of Citra (`src/citra_libretro/environment.cpp`)

A shallow embedding of the bridge between the emulator and the libretro frontend.

* The file-scope statics of `environment.cpp` (`video_cb`, `environ_cb`, `input_poll_cb`,
  `input_state_cb`, `vulkan`) and the function-local static `iface` of `SetVkDeviceCallbacks`
  are fields of `World`.
* The frontend is a state `σ` together with the callbacks it registers; a callback is a
  function on that state.  The dispatcher receives the command code and the cell its `void*`
  argument points to, and answers with its boolean, the cell as it left it, and its new state.
* Every invocation of the dispatcher is appended to `World.calls`, every `LOG_ERROR` to
  `World.log`, and every run of `OnConfigureEnvironment` to `World.hook_runs`.
* A call through a null function pointer is undefined behaviour: the functions that call one
  return `none` there.
-/

namespace LibRetro

/-! ## Types of `libretro.h`, `libretro_vulkan.h` and the emulator used by the bridge -/

/-- An address the bridge hands on without looking behind it (`void*`, `const char*` that is
not read, function pointers of the emulator); `0` is the null pointer. -/
abbrev Ptr := Nat

/-- The null pointer. -/
def NULL : Ptr := 0

/-- A `const char*` that is read or produced as text: `none` is the null pointer, `some s`
points to the C string `s`. -/
abbrev CString := Option String

/-- Modelled from the spec: the command codes of `libretro.h` (the header is not among the
sources), a closed enumeration with one enumerator per `RETRO_ENVIRONMENT_*` macro that
`environment.cpp` passes to the dispatcher. -/
inductive Cmd
  | RETRO_ENVIRONMENT_SET_HW_SHARED_CONTEXT
  | RETRO_ENVIRONMENT_GET_PREFERRED_HW_RENDER
  | RETRO_ENVIRONMENT_SET_VARIABLES
  | RETRO_ENVIRONMENT_SET_CONTROLLER_INFO
  | RETRO_ENVIRONMENT_SET_PIXEL_FORMAT
  | RETRO_ENVIRONMENT_SET_HW_RENDER
  | RETRO_ENVIRONMENT_SET_HW_RENDER_CONTEXT_NEGOTIATION_INTERFACE
  | RETRO_ENVIRONMENT_SET_AUDIO_CALLBACK
  | RETRO_ENVIRONMENT_SET_FRAME_TIME_CALLBACK
  | RETRO_ENVIRONMENT_SET_GEOMETRY
  | RETRO_ENVIRONMENT_SET_INPUT_DESCRIPTORS
  | RETRO_ENVIRONMENT_GET_VARIABLE_UPDATE
  | RETRO_ENVIRONMENT_SHUTDOWN
  | RETRO_ENVIRONMENT_SET_MESSAGE
  | RETRO_ENVIRONMENT_GET_HW_RENDER_INTERFACE
  | RETRO_ENVIRONMENT_GET_VARIABLE
  | RETRO_ENVIRONMENT_GET_SAVE_DIRECTORY
  | RETRO_ENVIRONMENT_GET_SYSTEM_DIRECTORY
  | RETRO_ENVIRONMENT_GET_LOG_INTERFACE
  deriving DecidableEq, Repr

/-- Modelled from the spec: `enum retro_hw_context_type` of `libretro.h` (not among the
sources).  The bridge names two enumerators; `other raw` stands for every further value a
frontend may store in a slot of this type. -/
inductive retro_hw_context_type
  | RETRO_HW_CONTEXT_OPENGL
  | RETRO_HW_CONTEXT_VULKAN
  | other (raw : Nat)
  deriving DecidableEq, Repr

/-- Modelled from the spec: `Settings::GraphicsAPI` of the emulator (not among the sources),
with the two enumerators the bridge returns: the baseline API and the alternate one. -/
inductive GraphicsAPI
  | OpenGL
  | Vulkan
  deriving DecidableEq, Repr

/-- The raw value of an `enum retro_pixel_format`. -/
abbrev retro_pixel_format := Nat

/-- Integer constants of `libretro_vulkan.h`, which is not among the sources: they are taken
as parameters, so every statement below holds whatever their values are. -/
structure VulkanHeader where
  RETRO_HW_RENDER_INTERFACE_VULKAN_VERSION : Nat
  RETRO_HW_RENDER_CONTEXT_NEGOTIATION_INTERFACE_VULKAN : Nat
  RETRO_HW_RENDER_CONTEXT_NEGOTIATION_INTERFACE_VULKAN_VERSION : Nat
  deriving DecidableEq, Repr

/-- The head of `struct retro_hw_render_interface_vulkan`: the version field the bridge reads,
the type tag before it and the handle after it (the remaining members are never touched by
the bridge). A pointer to such a structure is an `Option`: `none` is null, `some v` points
to the frontend-owned structure `v`. -/
structure retro_hw_render_interface_vulkan where
  interface_type : Nat
  interface_version : Nat
  handle : Ptr
  deriving DecidableEq, Repr

/-- The record `struct retro_hw_render_context_negotiation_interface_vulkan`, in the order of
the five initialisers of `iface` in `SetVkDeviceCallbacks`. -/
structure retro_hw_render_context_negotiation_interface_vulkan where
  interface_type : Nat
  interface_version : Nat
  get_application_info : Ptr
  create_device : Ptr
  destroy_device : Ptr
  deriving DecidableEq, Repr

/-- The record `struct retro_message`. -/
structure retro_message where
  msg : Ptr
  frames : Nat
  deriving DecidableEq, Repr

/-- The record `struct retro_variable`. -/
structure retro_variable where
  key : CString
  value : CString
  deriving DecidableEq, Repr

/-- The record `struct retro_log_callback`: the logging function of the frontend. -/
structure retro_log_callback where
  log : Ptr
  deriving DecidableEq, Repr

/-- What the `void*` argument of one dispatcher call points to. -/
inductive Shape
  | null
  | pointer
  | pixel_format
  | context_type
  | negotiation
  | updated
  | message
  | render_interface
  | variable
  | directory
  | log_callback
  deriving DecidableEq, Repr

/-- The type of the cell behind the `void*` argument, by shape: nothing for a null argument,
the address itself for a pointer of the caller that is handed on, and the pointed-to object
for the locals and statics whose address the bridge passes. -/
@[reducible]
def Shape.Cell : Shape → Type
  | .null => Unit
  | .pointer => Ptr
  | .pixel_format => retro_pixel_format
  | .context_type => retro_hw_context_type
  | .negotiation => retro_hw_render_context_negotiation_interface_vulkan
  | .updated => Bool
  | .message => retro_message
  | .render_interface => Option retro_hw_render_interface_vulkan
  | .variable => retro_variable
  | .directory => CString
  | .log_callback => retro_log_callback

/-- The payload of one dispatcher call as the frontend receives it. -/
structure Payload where
  shape : Shape
  cell : shape.Cell

/-- The dispatcher `retro_environment_t`, `bool (*)(unsigned cmd, void* data)`, of a frontend
with state `σ`: from the command code, the cell behind `data` and its state it gives the
boolean it returns, the cell as it leaves it, and its new state. -/
abbrev retro_environment_t (σ : Type) :=
  Cmd → (s : Shape) → s.Cell → σ → Bool × s.Cell × σ

/-- The callback `retro_video_refresh_t`: `(data, width, height, pitch)`. -/
abbrev retro_video_refresh_t (σ : Type) := Ptr → Nat → Nat → Nat → σ → σ

/-- The callback `retro_input_poll_t`. -/
abbrev retro_input_poll_t (σ : Type) := σ → σ

/-- The callback `retro_input_state_t`: `(port, device, index, id)`, returning an `int16_t`. -/
abbrev retro_input_state_t (σ : Type) := Nat → Nat → Nat → Nat → σ → Int × σ

/-- The callback `retro_audio_sample_t`: `(left, right)`. -/
abbrev retro_audio_sample_t (σ : Type) := Int → Int → σ → σ

/-- Modelled from the spec: the severity of a log entry (the logging macros of
`common/logging` are not among the sources); the bridge logs at error level only. -/
inductive LogLevel
  | Error
  deriving DecidableEq, Repr

/-- One entry written by a logging macro: its level and its formatted text (the log class is
`Frontend` throughout the bridge). -/
structure LogEntry where
  level : LogLevel
  text : String
  deriving DecidableEq, Repr

/-- The process as the bridge sees it: the statics of `environment.cpp`, the frontend, and
the three observation traces. -/
structure World (σ : Type) where
  video_cb : Option (retro_video_refresh_t σ)
  environ_cb : Option (retro_environment_t σ)
  input_poll_cb : Option (retro_input_poll_t σ)
  input_state_cb : Option (retro_input_state_t σ)
  vulkan : Option retro_hw_render_interface_vulkan
  iface : Option retro_hw_render_context_negotiation_interface_vulkan
  host : σ
  calls : List (Cmd × Payload)
  log : List LogEntry
  hook_runs : List (Option (retro_environment_t σ))

/-- The process at start-up: statics are zero-initialised, the function-local static is not
yet initialised, nothing has been observed. -/
def World.init {σ : Type} (host : σ) : World σ :=
  { video_cb := none, environ_cb := none, input_poll_cb := none, input_state_cb := none,
    vulkan := none, iface := none, host := host, calls := [], log := [], hook_runs := [] }

/-! ## The dispatcher call and the logging macro -/

/-- One evaluation of `environ_cb(cmd, data)`: undefined when the stored pointer is null;
otherwise the stored dispatcher runs once on the frontend state, the call is noted in
`calls`, and the boolean and the cell it left are handed back. -/
def call_environ_cb {σ : Type} (w : World σ) (cmd : Cmd) (s : Shape) (cell : s.Cell) :
    Option (Bool × s.Cell × World σ) :=
  match w.environ_cb with
  | none => none
  | some cb =>
    let r := cb cmd s cell w.host
    some (r.1, r.2.1, { w with host := r.2.2, calls := w.calls ++ [(cmd, ⟨s, cell⟩)] })

/-- Modelled from the spec: the macro `LOG_ERROR(Frontend, ...)` of `common/logging` (not
among the sources) records one entry at error level with the formatted text. -/
def LOG_ERROR {σ : Type} (text : String) (w : World σ) : World σ :=
  { w with log := w.log ++ [{ level := LogLevel.Error, text := text }] }

/-! ## The bridge functions, in the order of `environment.cpp` -/

/-- The function `UploadVideoFrame`: calls `video_cb(data, width, height, pitch)`. -/
def UploadVideoFrame {σ : Type} (data : Ptr) (width height pitch : Nat) (w : World σ) :
    Option (World σ) :=
  match w.video_cb with
  | none => none
  | some cb => some { w with host := cb data width height pitch w.host }

/-- The function `SetHWSharedContext`. -/
def SetHWSharedContext {σ : Type} (w : World σ) : Option (Bool × World σ) :=
  (call_environ_cb w Cmd.RETRO_ENVIRONMENT_SET_HW_SHARED_CONTEXT Shape.null ()).map
    fun r => (r.1, r.2.2)

/-- The function `PollInput`: calls `input_poll_cb()`. -/
def PollInput {σ : Type} (w : World σ) : Option (World σ) :=
  match w.input_poll_cb with
  | none => none
  | some cb => some { w with host := cb w.host }

/-- The function `GetPrefferedHWRenderer`: the local `context_type` starts as
`RETRO_HW_CONTEXT_OPENGL`, the dispatcher is called on its address and its boolean is
dropped, then the local is compared with `RETRO_HW_CONTEXT_VULKAN`. -/
def GetPrefferedHWRenderer {σ : Type} (w : World σ) : Option (GraphicsAPI × World σ) :=
  let context_type := retro_hw_context_type.RETRO_HW_CONTEXT_OPENGL
  match call_environ_cb w Cmd.RETRO_ENVIRONMENT_GET_PREFERRED_HW_RENDER Shape.context_type
      context_type with
  | none => none
  | some (_, context_type, w) =>
    if context_type = retro_hw_context_type.RETRO_HW_CONTEXT_VULKAN then
      some (GraphicsAPI.Vulkan, w)
    else
      some (GraphicsAPI.OpenGL, w)

/-- The function `SetVariables`. -/
def SetVariables {σ : Type} (vars : Ptr) (w : World σ) : Option (Bool × World σ) :=
  (call_environ_cb w Cmd.RETRO_ENVIRONMENT_SET_VARIABLES Shape.pointer vars).map
    fun r => (r.1, r.2.2)

/-- The function `SetControllerInfo`. -/
def SetControllerInfo {σ : Type} (info : Ptr) (w : World σ) : Option (Bool × World σ) :=
  (call_environ_cb w Cmd.RETRO_ENVIRONMENT_SET_CONTROLLER_INFO Shape.pointer info).map
    fun r => (r.1, r.2.2)

/-- The function `SetPixelFormat`: passes the address of its by-value parameter `fmt`. -/
def SetPixelFormat {σ : Type} (fmt : retro_pixel_format) (w : World σ) :
    Option (Bool × World σ) :=
  (call_environ_cb w Cmd.RETRO_ENVIRONMENT_SET_PIXEL_FORMAT Shape.pixel_format fmt).map
    fun r => (r.1, r.2.2)

/-- The function `SetHWRenderer`. -/
def SetHWRenderer {σ : Type} (cb : Ptr) (w : World σ) : Option (Bool × World σ) :=
  (call_environ_cb w Cmd.RETRO_ENVIRONMENT_SET_HW_RENDER Shape.pointer cb).map
    fun r => (r.1, r.2.2)

/-- The function `SetVkDeviceCallbacks`.  Its record `iface` is a function-local
`static const` whose initialisers include the two parameters: it is initialised when control
first passes its declaration and keeps that value in every later call. -/
def SetVkDeviceCallbacks {σ : Type} (K : VulkanHeader) (vk_create_device vk_destroy_device : Ptr)
    (w : World σ) : Option (Bool × World σ) :=
  let iface : retro_hw_render_context_negotiation_interface_vulkan :=
    match w.iface with
    | some initialised => initialised
    | none =>
      { interface_type := K.RETRO_HW_RENDER_CONTEXT_NEGOTIATION_INTERFACE_VULKAN,
        interface_version := K.RETRO_HW_RENDER_CONTEXT_NEGOTIATION_INTERFACE_VULKAN_VERSION,
        get_application_info := NULL,
        create_device := vk_create_device,
        destroy_device := vk_destroy_device }
  let w := { w with iface := some iface }
  (call_environ_cb w Cmd.RETRO_ENVIRONMENT_SET_HW_RENDER_CONTEXT_NEGOTIATION_INTERFACE
    Shape.negotiation iface).map fun r => (r.1, r.2.2)

/-- The function `SetAudioCallback`. -/
def SetAudioCallback {σ : Type} (cb : Ptr) (w : World σ) : Option (Bool × World σ) :=
  (call_environ_cb w Cmd.RETRO_ENVIRONMENT_SET_AUDIO_CALLBACK Shape.pointer cb).map
    fun r => (r.1, r.2.2)

/-- The function `SetFrameTimeCallback`. -/
def SetFrameTimeCallback {σ : Type} (cb : Ptr) (w : World σ) : Option (Bool × World σ) :=
  (call_environ_cb w Cmd.RETRO_ENVIRONMENT_SET_FRAME_TIME_CALLBACK Shape.pointer cb).map
    fun r => (r.1, r.2.2)

/-- The function `SetGeometry`. -/
def SetGeometry {σ : Type} (cb : Ptr) (w : World σ) : Option (Bool × World σ) :=
  (call_environ_cb w Cmd.RETRO_ENVIRONMENT_SET_GEOMETRY Shape.pointer cb).map
    fun r => (r.1, r.2.2)

/-- The function `SetInputDescriptors`. -/
def SetInputDescriptors {σ : Type} (desc : Ptr) (w : World σ) : Option (Bool × World σ) :=
  (call_environ_cb w Cmd.RETRO_ENVIRONMENT_SET_INPUT_DESCRIPTORS Shape.pointer desc).map
    fun r => (r.1, r.2.2)

/-- The function `HasUpdatedConfig`: the local `updated` starts false and the result is the
dispatcher's boolean `&&` the local. -/
def HasUpdatedConfig {σ : Type} (w : World σ) : Option (Bool × World σ) :=
  let updated := false
  (call_environ_cb w Cmd.RETRO_ENVIRONMENT_GET_VARIABLE_UPDATE Shape.updated updated).map
    fun r => (r.1 && r.2.1, r.2.2)

/-- The function `Shutdown`. -/
def Shutdown {σ : Type} (w : World σ) : Option (Bool × World σ) :=
  (call_environ_cb w Cmd.RETRO_ENVIRONMENT_SHUTDOWN Shape.null ()).map
    fun r => (r.1, r.2.2)

/-- The function `DisplayMessage`: the local record gets `msg = sg` and `frames = 60 * 10`. -/
def DisplayMessage {σ : Type} (sg : Ptr) (w : World σ) : Option (Bool × World σ) :=
  let msg : retro_message := { msg := sg, frames := 60 * 10 }
  (call_environ_cb w Cmd.RETRO_ENVIRONMENT_SET_MESSAGE Shape.message msg).map
    fun r => (r.1, r.2.2)

/-- The function `GetHWRenderInterfaceVulkan`: the dispatcher is called on the address of the
static `vulkan`, so whatever it leaves in the cell is the new value of the static; null is
returned when the dispatcher fails or the static is null; when the version of the structure
it points to differs from the expected one the static is reset and null is returned. -/
def GetHWRenderInterfaceVulkan {σ : Type} (K : VulkanHeader) (w : World σ) :
    Option (Option retro_hw_render_interface_vulkan × World σ) :=
  match call_environ_cb w Cmd.RETRO_ENVIRONMENT_GET_HW_RENDER_INTERFACE Shape.render_interface
      w.vulkan with
  | none => none
  | some (ok, slot, w) =>
    let w := { w with vulkan := slot }
    match ok, w.vulkan with
    | true, some v =>
      if v.interface_version ≠ K.RETRO_HW_RENDER_INTERFACE_VULKAN_VERSION then
        some (none, { w with vulkan := none })
      else
        some (some v, w)
    | _, _ => some (none, w)

/-- The function `FetchVariable`. -/
def FetchVariable {σ : Type} (key def_ : String) (w : World σ) : Option (String × World σ) :=
  let var : retro_variable := { key := none, value := none }
  let var := { var with key := some key }
  match call_environ_cb w Cmd.RETRO_ENVIRONMENT_GET_VARIABLE Shape.variable var with
  | none => none
  | some (ok, var, w) =>
    match ok, var.value with
    | true, some value => some (value, w)
    | _, _ => some (def_, LOG_ERROR ("Fetching variable " ++ key ++ " failed.") w)

/-- The function `GetSaveDir`. -/
def GetSaveDir {σ : Type} (w : World σ) : Option (String × World σ) :=
  let var : CString := none
  match call_environ_cb w Cmd.RETRO_ENVIRONMENT_GET_SAVE_DIRECTORY Shape.directory var with
  | none => none
  | some (ok, var, w) =>
    match ok, var with
    | true, some dir => some (dir, w)
    | _, _ => some ("", LOG_ERROR "No save directory provided by LibRetro." w)

/-- The function `GetSystemDir`. -/
def GetSystemDir {σ : Type} (w : World σ) : Option (String × World σ) :=
  let var : CString := none
  match call_environ_cb w Cmd.RETRO_ENVIRONMENT_GET_SYSTEM_DIRECTORY Shape.directory var with
  | none => none
  | some (ok, var, w) =>
    match ok, var with
    | true, some dir => some (dir, w)
    | _, _ => some ("", LOG_ERROR "No system directory provided by LibRetro." w)

/-- The function `GetLoggingBackend`: the local record is value-initialised. -/
def GetLoggingBackend {σ : Type} (w : World σ) : Option (Ptr × World σ) :=
  let callback : retro_log_callback := { log := NULL }
  match call_environ_cb w Cmd.RETRO_ENVIRONMENT_GET_LOG_INTERFACE Shape.log_callback
      callback with
  | none => none
  | some (ok, callback, w) => if !ok then some (NULL, w) else some (callback.log, w)

/-- The function `CheckInput`: calls `input_state_cb(port, device, index, id)`. -/
def CheckInput {σ : Type} (port device index id : Nat) (w : World σ) :
    Option (Int × World σ) :=
  match w.input_state_cb with
  | none => none
  | some cb =>
    let r := cb port device index id w.host
    some (r.1, { w with host := r.2 })

/-! ## The setters the frontend calls -/

/-- One run of the hook `LibRetro::OnConfigureEnvironment()`, which is defined outside
`environment.cpp` and therefore a parameter `body`: the run is noted in `hook_runs` together
with the dispatcher stored at that moment.  The trace is an observation, not program state,
so `body` has no say in it. -/
def call_OnConfigureEnvironment {σ : Type} (body : World σ → World σ) (w : World σ) :
    World σ :=
  { body w with hook_runs := w.hook_runs ++ [w.environ_cb] }

/-- The function `retro_set_audio_sample`: its body is empty. -/
def retro_set_audio_sample {σ : Type} (_cb : Option (retro_audio_sample_t σ)) (w : World σ) :
    World σ :=
  w

/-- The function `retro_set_input_poll`. -/
def retro_set_input_poll {σ : Type} (cb : Option (retro_input_poll_t σ)) (w : World σ) :
    World σ :=
  { w with input_poll_cb := cb }

/-- The function `retro_set_video_refresh`. -/
def retro_set_video_refresh {σ : Type} (cb : Option (retro_video_refresh_t σ)) (w : World σ) :
    World σ :=
  { w with video_cb := cb }

/-- The function `retro_set_environment`: stores the dispatcher, then runs the hook. -/
def retro_set_environment {σ : Type} (OnConfigureEnvironment : World σ → World σ)
    (cb : Option (retro_environment_t σ)) (w : World σ) : World σ :=
  let w := { w with environ_cb := cb }
  call_OnConfigureEnvironment OnConfigureEnvironment w

/-- The function `retro_set_input_state`. -/
def retro_set_input_state {σ : Type} (cb : Option (retro_input_state_t σ)) (w : World σ) :
    World σ :=
  { w with input_state_cb := cb }

/-- One call of a setter by the frontend, with the callback pointer it passes (possibly
null). -/
inductive SetterCall (σ : Type)
  | set_environment (cb : Option (retro_environment_t σ))
  | set_video_refresh (cb : Option (retro_video_refresh_t σ))
  | set_input_poll (cb : Option (retro_input_poll_t σ))
  | set_input_state (cb : Option (retro_input_state_t σ))
  | set_audio_sample (cb : Option (retro_audio_sample_t σ))

/-- Carrying out one setter call. -/
def SetterCall.run {σ : Type} (OnConfigureEnvironment : World σ → World σ) :
    SetterCall σ → World σ → World σ
  | .set_environment cb, w => retro_set_environment OnConfigureEnvironment cb w
  | .set_video_refresh cb, w => retro_set_video_refresh cb w
  | .set_input_poll cb, w => retro_set_input_poll cb w
  | .set_input_state cb, w => retro_set_input_state cb w
  | .set_audio_sample cb, w => retro_set_audio_sample cb w

/-- Carrying out a sequence of setter calls, first to last. -/
def run_setters {σ : Type} (OnConfigureEnvironment : World σ → World σ) :
    List (SetterCall σ) → World σ → World σ
  | [], w => w
  | c :: rest, w => run_setters OnConfigureEnvironment rest (c.run OnConfigureEnvironment w)

/-- The dispatchers passed by the registration calls of a sequence, in order. -/
def registrations {σ : Type} : List (SetterCall σ) → List (Option (retro_environment_t σ))
  | [] => []
  | .set_environment cb :: rest => cb :: registrations rest
  | _ :: rest => registrations rest

/-! ## Reference outcomes and sample frontends -/

/-- The outcome of exactly one invocation of the dispatcher `cb` on `(cmd, cell)` from world
`w`: the boolean it returned, and `w` with the frontend state it left and with this one call
appended to `calls`. -/
def dispatched_once {σ : Type} (cb : retro_environment_t σ) (w : World σ) (cmd : Cmd)
    (s : Shape) (cell : s.Cell) : Bool × World σ :=
  ((cb cmd s cell w.host).1,
   { w with host := (cb cmd s cell w.host).2.2, calls := w.calls ++ [(cmd, ⟨s, cell⟩)] })

/-- A frontend that counts the calls it receives, accepts (or declines) every command and
leaves every cell as it finds it. -/
def passiveHost (answer : Bool) : retro_environment_t Nat :=
  fun _ _ cell n => (answer, cell, n + 1)

/-- A frontend that stores `t` in the context-type slot and returns `answer`. -/
def contextHost (t : retro_hw_context_type) (answer : Bool) : retro_environment_t Nat :=
  fun _ s cell n =>
    match s, cell with
    | Shape.context_type, _ => (answer, t, n + 1)
    | _, cell => (answer, cell, n + 1)

/-- A frontend that sets the update flag to `flag` and returns `answer`. -/
def updateHost (flag answer : Bool) : retro_environment_t Nat :=
  fun _ s cell n =>
    match s, cell with
    | Shape.updated, _ => (answer, flag, n + 1)
    | _, cell => (answer, cell, n + 1)

/-- A frontend that answers the render-interface query from a script indexed by the number
of calls it has received: entry `n` gives the boolean and, if any, the structure it stores
in the slot (`none` leaves the slot untouched); past the script it declines. -/
def scriptedHost (script : List (Bool × Option retro_hw_render_interface_vulkan)) :
    retro_environment_t Nat :=
  fun _ s cell n =>
    match s, cell with
    | Shape.render_interface, slot =>
      match script.get? n with
      | some (answer, some v) => (answer, some v, n + 1)
      | some (answer, none) => (answer, slot, n + 1)
      | none => (false, slot, n + 1)
    | _, cell => (false, cell, n + 1)

/-- Sample values of the constants of `libretro_vulkan.h`. -/
def sampleHeader : VulkanHeader :=
  { RETRO_HW_RENDER_INTERFACE_VULKAN_VERSION := 5,
    RETRO_HW_RENDER_CONTEXT_NEGOTIATION_INTERFACE_VULKAN := 0,
    RETRO_HW_RENDER_CONTEXT_NEGOTIATION_INTERFACE_VULKAN_VERSION := 1 }

/-- A world in which the dispatcher `cb` has been stored and nothing else has happened. -/
def registered (cb : retro_environment_t Nat) : World Nat :=
  { World.init 0 with environ_cb := some cb }

/-- A sample hook: it publishes a configuration schema through `SetVariables`. -/
def sampleHook (w : World Nat) : World Nat :=
  match SetVariables 4096 w with
  | some (_, w1) => w1
  | none => w

/-- Carrying out `n` calls of `GetHWRenderInterfaceVulkan` one after the other: the pointers
they return, first to last, and the world after the last. -/
def GetHWRenderInterfaceVulkan_calls {σ : Type} (K : VulkanHeader) :
    Nat → World σ → Option (List (Option retro_hw_render_interface_vulkan) × World σ)
  | 0, w => some ([], w)
  | n + 1, w =>
    match GetHWRenderInterfaceVulkan K w with
    | none => none
    | some (res, w1) =>
      match GetHWRenderInterfaceVulkan_calls K n w1 with
      | none => none
      | some (rest, w2) => some (res :: rest, w2)

/-- The booleans the dispatcher `cb` returns to `n` render-interface queries one after the
other, each made on a slot holding `v`, starting from the frontend state `s`. -/
def render_interface_answers {σ : Type} (cb : retro_environment_t σ)
    (v : retro_hw_render_interface_vulkan) : Nat → σ → List Bool
  | 0, _ => []
  | n + 1, s =>
    (cb Cmd.RETRO_ENVIRONMENT_GET_HW_RENDER_INTERFACE Shape.render_interface (some v) s).1
      :: render_interface_answers cb v n
          (cb Cmd.RETRO_ENVIRONMENT_GET_HW_RENDER_INTERFACE Shape.render_interface (some v)
            s).2.2

/-! ## Theorems -/

/-- Claim C1: with a dispatcher stored, each plain wrapper is exactly one invocation of that
dispatcher with the wrapper's own command code and payload (null for `SetHWSharedContext`
and `Shutdown`, the caller's pointer for the pointer-taking wrappers, the format value behind
the pointer for `SetPixelFormat`), and returns the dispatcher's boolean. -/
theorem plain_wrappers_dispatch_once {σ : Type} (w : World σ) (cb : retro_environment_t σ)
    (h : w.environ_cb = some cb) (vars info hw audio frame_time geometry desc : Ptr)
    (fmt : retro_pixel_format) :
    SetHWSharedContext w
        = some (dispatched_once cb w Cmd.RETRO_ENVIRONMENT_SET_HW_SHARED_CONTEXT Shape.null ())
    ∧ SetVariables vars w
        = some (dispatched_once cb w Cmd.RETRO_ENVIRONMENT_SET_VARIABLES Shape.pointer vars)
    ∧ SetControllerInfo info w
        = some (dispatched_once cb w Cmd.RETRO_ENVIRONMENT_SET_CONTROLLER_INFO Shape.pointer info)
    ∧ SetPixelFormat fmt w
        = some (dispatched_once cb w Cmd.RETRO_ENVIRONMENT_SET_PIXEL_FORMAT Shape.pixel_format fmt)
    ∧ SetHWRenderer hw w
        = some (dispatched_once cb w Cmd.RETRO_ENVIRONMENT_SET_HW_RENDER Shape.pointer hw)
    ∧ SetAudioCallback audio w
        = some (dispatched_once cb w Cmd.RETRO_ENVIRONMENT_SET_AUDIO_CALLBACK Shape.pointer audio)
    ∧ SetFrameTimeCallback frame_time w
        = some (dispatched_once cb w Cmd.RETRO_ENVIRONMENT_SET_FRAME_TIME_CALLBACK Shape.pointer
            frame_time)
    ∧ SetGeometry geometry w
        = some (dispatched_once cb w Cmd.RETRO_ENVIRONMENT_SET_GEOMETRY Shape.pointer geometry)
    ∧ SetInputDescriptors desc w
        = some (dispatched_once cb w Cmd.RETRO_ENVIRONMENT_SET_INPUT_DESCRIPTORS Shape.pointer desc)
    ∧ Shutdown w
        = some (dispatched_once cb w Cmd.RETRO_ENVIRONMENT_SHUTDOWN Shape.null ()) := by
  refine ⟨?_, ?_, ?_, ?_, ?_, ?_, ?_, ?_, ?_, ?_⟩ <;>
    simp [SetHWSharedContext, SetVariables, SetControllerInfo, SetPixelFormat, SetHWRenderer,
      SetAudioCallback, SetFrameTimeCallback, SetGeometry, SetInputDescriptors, Shutdown,
      call_environ_cb, dispatched_once, h]

/-- Witness of C1 at a frontend that accepts every command. -/
theorem plain_wrappers_dispatch_once_witness :
    (registered (passiveHost true)).environ_cb = some (passiveHost true)
    ∧ SetVariables 4096 (registered (passiveHost true))
        = some (dispatched_once (passiveHost true) (registered (passiveHost true))
            Cmd.RETRO_ENVIRONMENT_SET_VARIABLES Shape.pointer 4096) :=
  ⟨rfl, (plain_wrappers_dispatch_once (registered (passiveHost true)) (passiveHost true) rfl
    4096 1 2 3 4 5 6 2).2.1⟩

/-- Claim C2: with a dispatcher stored, `GetPrefferedHWRenderer` is one invocation of it with
`RETRO_ENVIRONMENT_GET_PREFERRED_HW_RENDER` and a slot pre-set to `RETRO_HW_CONTEXT_OPENGL`;
it returns `Vulkan` when the slot then holds `RETRO_HW_CONTEXT_VULKAN` and `OpenGL` for every
other content of the slot, an untouched slot and every unrecognised value included. -/
theorem GetPrefferedHWRenderer_maps_slot {σ : Type} (w : World σ) (cb : retro_environment_t σ)
    (h : w.environ_cb = some cb) :
    ∃ api : GraphicsAPI,
      GetPrefferedHWRenderer w
        = some (api, (dispatched_once cb w Cmd.RETRO_ENVIRONMENT_GET_PREFERRED_HW_RENDER
            Shape.context_type retro_hw_context_type.RETRO_HW_CONTEXT_OPENGL).2)
      ∧ ((cb Cmd.RETRO_ENVIRONMENT_GET_PREFERRED_HW_RENDER Shape.context_type
            retro_hw_context_type.RETRO_HW_CONTEXT_OPENGL w.host).2.1
            = retro_hw_context_type.RETRO_HW_CONTEXT_VULKAN → api = GraphicsAPI.Vulkan)
      ∧ ((cb Cmd.RETRO_ENVIRONMENT_GET_PREFERRED_HW_RENDER Shape.context_type
            retro_hw_context_type.RETRO_HW_CONTEXT_OPENGL w.host).2.1
            ≠ retro_hw_context_type.RETRO_HW_CONTEXT_VULKAN → api = GraphicsAPI.OpenGL)
      ∧ ((cb Cmd.RETRO_ENVIRONMENT_GET_PREFERRED_HW_RENDER Shape.context_type
            retro_hw_context_type.RETRO_HW_CONTEXT_OPENGL w.host).2.1
            = retro_hw_context_type.RETRO_HW_CONTEXT_OPENGL → api = GraphicsAPI.OpenGL)
      ∧ (∀ raw : Nat, (cb Cmd.RETRO_ENVIRONMENT_GET_PREFERRED_HW_RENDER Shape.context_type
            retro_hw_context_type.RETRO_HW_CONTEXT_OPENGL w.host).2.1
            = retro_hw_context_type.other raw → api = GraphicsAPI.OpenGL) := by
  by_cases hv : (cb Cmd.RETRO_ENVIRONMENT_GET_PREFERRED_HW_RENDER Shape.context_type
      retro_hw_context_type.RETRO_HW_CONTEXT_OPENGL w.host).2.1
      = retro_hw_context_type.RETRO_HW_CONTEXT_VULKAN
  · refine ⟨GraphicsAPI.Vulkan, ?_, ?_, ?_, ?_, ?_⟩
    · simp [GetPrefferedHWRenderer, call_environ_cb, dispatched_once, h, hv]
    · intro _; rfl
    · intro hne; exact absurd hv hne
    · intro ho; rw [ho] at hv; cases hv
    · intro raw ho; rw [ho] at hv; cases hv
  · refine ⟨GraphicsAPI.OpenGL, ?_, ?_, ?_, ?_, ?_⟩
    · simp [GetPrefferedHWRenderer, call_environ_cb, dispatched_once, h, hv]
    · intro he; exact absurd he hv
    · intro _; rfl
    · intro _; rfl
    · intro _ _; rfl

/-- Witness of C2 at a frontend that accepts the query and writes the Vulkan context type. -/
theorem GetPrefferedHWRenderer_maps_slot_witness :
    (registered (contextHost retro_hw_context_type.RETRO_HW_CONTEXT_VULKAN true)).environ_cb
      = some (contextHost retro_hw_context_type.RETRO_HW_CONTEXT_VULKAN true)
    ∧ ∃ api : GraphicsAPI,
      GetPrefferedHWRenderer
          (registered (contextHost retro_hw_context_type.RETRO_HW_CONTEXT_VULKAN true))
        = some (api, (dispatched_once
            (contextHost retro_hw_context_type.RETRO_HW_CONTEXT_VULKAN true)
            (registered (contextHost retro_hw_context_type.RETRO_HW_CONTEXT_VULKAN true))
            Cmd.RETRO_ENVIRONMENT_GET_PREFERRED_HW_RENDER
            Shape.context_type retro_hw_context_type.RETRO_HW_CONTEXT_OPENGL).2)
      ∧ api = GraphicsAPI.Vulkan :=
  ⟨rfl,
    match GetPrefferedHWRenderer_maps_slot
      (registered (contextHost retro_hw_context_type.RETRO_HW_CONTEXT_VULKAN true))
      (contextHost retro_hw_context_type.RETRO_HW_CONTEXT_VULKAN true) rfl with
    | ⟨api, hcall, hvulkan, _⟩ => ⟨api, hcall, hvulkan rfl⟩⟩

/-- Counterexample to claim C3: a frontend that writes `RETRO_HW_CONTEXT_VULKAN` into the slot
and then returns failure makes `GetPrefferedHWRenderer` return `Vulkan`, not `OpenGL`. -/
theorem GetPrefferedHWRenderer_failure_not_baseline :
    (contextHost retro_hw_context_type.RETRO_HW_CONTEXT_VULKAN false
        Cmd.RETRO_ENVIRONMENT_GET_PREFERRED_HW_RENDER Shape.context_type
        retro_hw_context_type.RETRO_HW_CONTEXT_OPENGL 0).1 = false
    ∧ (GetPrefferedHWRenderer
        (registered (contextHost retro_hw_context_type.RETRO_HW_CONTEXT_VULKAN false))).map
          Prod.fst = some GraphicsAPI.Vulkan := by
  constructor <;> rfl

/-- Claim C3 as amended: when the dispatcher returns failure for
`RETRO_ENVIRONMENT_GET_PREFERRED_HW_RENDER`, its boolean plays no part: the call still
returns, and the result is `OpenGL` exactly when the slot, pre-set to
`RETRO_HW_CONTEXT_OPENGL`, does not hold `RETRO_HW_CONTEXT_VULKAN` after the call (so for a
frontend that declines without touching the slot), and `Vulkan` when it does. -/
theorem GetPrefferedHWRenderer_on_failure {σ : Type} (w : World σ) (cb : retro_environment_t σ)
    (h : w.environ_cb = some cb)
    (_hfail : (cb Cmd.RETRO_ENVIRONMENT_GET_PREFERRED_HW_RENDER Shape.context_type
      retro_hw_context_type.RETRO_HW_CONTEXT_OPENGL w.host).1 = false) :
    ∃ api : GraphicsAPI,
      GetPrefferedHWRenderer w
        = some (api, (dispatched_once cb w Cmd.RETRO_ENVIRONMENT_GET_PREFERRED_HW_RENDER
            Shape.context_type retro_hw_context_type.RETRO_HW_CONTEXT_OPENGL).2)
      ∧ (api = GraphicsAPI.OpenGL ↔
          (cb Cmd.RETRO_ENVIRONMENT_GET_PREFERRED_HW_RENDER Shape.context_type
            retro_hw_context_type.RETRO_HW_CONTEXT_OPENGL w.host).2.1
            ≠ retro_hw_context_type.RETRO_HW_CONTEXT_VULKAN)
      ∧ (api = GraphicsAPI.Vulkan ↔
          (cb Cmd.RETRO_ENVIRONMENT_GET_PREFERRED_HW_RENDER Shape.context_type
            retro_hw_context_type.RETRO_HW_CONTEXT_OPENGL w.host).2.1
            = retro_hw_context_type.RETRO_HW_CONTEXT_VULKAN)
      ∧ ((cb Cmd.RETRO_ENVIRONMENT_GET_PREFERRED_HW_RENDER Shape.context_type
            retro_hw_context_type.RETRO_HW_CONTEXT_OPENGL w.host).2.1
            = retro_hw_context_type.RETRO_HW_CONTEXT_OPENGL → api = GraphicsAPI.OpenGL) := by
  by_cases hv : (cb Cmd.RETRO_ENVIRONMENT_GET_PREFERRED_HW_RENDER Shape.context_type
      retro_hw_context_type.RETRO_HW_CONTEXT_OPENGL w.host).2.1
      = retro_hw_context_type.RETRO_HW_CONTEXT_VULKAN
  · refine ⟨GraphicsAPI.Vulkan, ?_, ?_, ?_, ?_⟩
    · simp [GetPrefferedHWRenderer, call_environ_cb, dispatched_once, h, hv]
    · simp [hv]
    · simp [hv]
    · intro ho; rw [ho] at hv; cases hv
  · refine ⟨GraphicsAPI.OpenGL, ?_, ?_, ?_, ?_⟩
    · simp [GetPrefferedHWRenderer, call_environ_cb, dispatched_once, h, hv]
    · simp [hv]
    · simp [hv]
    · intro _; rfl

/-- Witness of the amended C3 at a frontend that declines without touching the slot. -/
theorem GetPrefferedHWRenderer_on_failure_witness :
    (registered (passiveHost false)).environ_cb = some (passiveHost false)
    ∧ (passiveHost false Cmd.RETRO_ENVIRONMENT_GET_PREFERRED_HW_RENDER Shape.context_type
        retro_hw_context_type.RETRO_HW_CONTEXT_OPENGL (registered (passiveHost false)).host).1
        = false
    ∧ ∃ api : GraphicsAPI,
      GetPrefferedHWRenderer (registered (passiveHost false))
        = some (api, (dispatched_once (passiveHost false) (registered (passiveHost false))
            Cmd.RETRO_ENVIRONMENT_GET_PREFERRED_HW_RENDER
            Shape.context_type retro_hw_context_type.RETRO_HW_CONTEXT_OPENGL).2)
      ∧ api = GraphicsAPI.OpenGL :=
  ⟨rfl, rfl,
    match GetPrefferedHWRenderer_on_failure (registered (passiveHost false))
      (passiveHost false) rfl rfl with
    | ⟨api, hcall, _, _, huntouched⟩ => ⟨api, hcall, huntouched rfl⟩⟩

/-- Claim C6: with a dispatcher stored, `HasUpdatedConfig` is one invocation of it with
`RETRO_ENVIRONMENT_GET_VARIABLE_UPDATE` and a flag initialised to false, and it returns true
if and only if the dispatcher returned success and left the flag set; so it returns false
when the dispatcher fails, whatever the flag, and when it succeeds with the flag unset. -/
theorem HasUpdatedConfig_iff {σ : Type} (w : World σ) (cb : retro_environment_t σ)
    (h : w.environ_cb = some cb) :
    ∃ updated : Bool,
      HasUpdatedConfig w
        = some (updated, (dispatched_once cb w Cmd.RETRO_ENVIRONMENT_GET_VARIABLE_UPDATE
            Shape.updated false).2)
      ∧ (updated = true ↔
          (cb Cmd.RETRO_ENVIRONMENT_GET_VARIABLE_UPDATE Shape.updated false w.host).1 = true
          ∧ (cb Cmd.RETRO_ENVIRONMENT_GET_VARIABLE_UPDATE Shape.updated false w.host).2.1 = true)
      ∧ ((cb Cmd.RETRO_ENVIRONMENT_GET_VARIABLE_UPDATE Shape.updated false w.host).1 = false
          → updated = false)
      ∧ ((cb Cmd.RETRO_ENVIRONMENT_GET_VARIABLE_UPDATE Shape.updated false w.host).2.1 = false
          → updated = false) := by
  refine ⟨(cb Cmd.RETRO_ENVIRONMENT_GET_VARIABLE_UPDATE Shape.updated false w.host).1
    && (cb Cmd.RETRO_ENVIRONMENT_GET_VARIABLE_UPDATE Shape.updated false w.host).2.1,
    ?_, ?_, ?_, ?_⟩
  · simp [HasUpdatedConfig, call_environ_cb, dispatched_once, h]
  · simp
  · intro hf; simp [hf]
  · intro hf; simp [hf]

/-- Witness of C6 at a frontend that sets the flag but returns failure. -/
theorem HasUpdatedConfig_iff_witness :
    (registered (updateHost true false)).environ_cb = some (updateHost true false)
    ∧ ∃ updated : Bool,
      HasUpdatedConfig (registered (updateHost true false))
        = some (updated, (dispatched_once (updateHost true false)
            (registered (updateHost true false)) Cmd.RETRO_ENVIRONMENT_GET_VARIABLE_UPDATE
            Shape.updated false).2)
      ∧ updated = false :=
  ⟨rfl,
    match HasUpdatedConfig_iff (registered (updateHost true false)) (updateHost true false)
      rfl with
    | ⟨updated, hcall, _, hfail, _⟩ => ⟨updated, hcall, hfail rfl⟩⟩

/-- Claim C8: with a dispatcher stored, `DisplayMessage sg` is exactly one invocation of it
with `RETRO_ENVIRONMENT_SET_MESSAGE` and a message record whose `frames` is 600 and whose
`msg` is the pointer `sg` itself, and it returns the dispatcher's boolean. -/
theorem DisplayMessage_payload {σ : Type} (sg : Ptr) (w : World σ) (cb : retro_environment_t σ)
    (h : w.environ_cb = some cb) :
    DisplayMessage sg w
      = some (dispatched_once cb w Cmd.RETRO_ENVIRONMENT_SET_MESSAGE Shape.message
          { msg := sg, frames := 600 }) := by
  simp [DisplayMessage, call_environ_cb, dispatched_once, h]

/-- Witness of C8 at a frontend that accepts every command. -/
theorem DisplayMessage_payload_witness :
    (registered (passiveHost true)).environ_cb = some (passiveHost true)
    ∧ DisplayMessage 8192 (registered (passiveHost true))
      = some (dispatched_once (passiveHost true) (registered (passiveHost true))
          Cmd.RETRO_ENVIRONMENT_SET_MESSAGE Shape.message { msg := 8192, frames := 600 }) :=
  ⟨rfl, DisplayMessage_payload 8192 (registered (passiveHost true)) (passiveHost true) rfl⟩

/-- Claim C4: when the dispatcher succeeds on `RETRO_ENVIRONMENT_GET_HW_RENDER_INTERFACE` and
leaves in the slot a structure whose `interface_version` differs from
`RETRO_HW_RENDER_INTERFACE_VULKAN_VERSION`, `GetHWRenderInterfaceVulkan` returns null and the
static `vulkan` is null afterwards; a following call in which the frontend supplies no
structure (it fails, or the slot is null when it returns) returns null again. -/
theorem GetHWRenderInterfaceVulkan_version_mismatch {σ : Type} (K : VulkanHeader)
    (w : World σ) (cb : retro_environment_t σ) (h : w.environ_cb = some cb)
    (v : retro_hw_render_interface_vulkan)
    (hok : (cb Cmd.RETRO_ENVIRONMENT_GET_HW_RENDER_INTERFACE Shape.render_interface w.vulkan
      w.host).1 = true)
    (hslot : (cb Cmd.RETRO_ENVIRONMENT_GET_HW_RENDER_INTERFACE Shape.render_interface w.vulkan
      w.host).2.1 = some v)
    (hver : v.interface_version ≠ K.RETRO_HW_RENDER_INTERFACE_VULKAN_VERSION) :
    ∃ w1 : World σ,
      GetHWRenderInterfaceVulkan K w = some (none, w1)
      ∧ w1.vulkan = none
      ∧ w1.environ_cb = some cb
      ∧ w1.host = (cb Cmd.RETRO_ENVIRONMENT_GET_HW_RENDER_INTERFACE Shape.render_interface
          w.vulkan w.host).2.2
      ∧ w1.calls = w.calls ++ [(Cmd.RETRO_ENVIRONMENT_GET_HW_RENDER_INTERFACE,
          ⟨Shape.render_interface, w.vulkan⟩)]
      ∧ (((cb Cmd.RETRO_ENVIRONMENT_GET_HW_RENDER_INTERFACE Shape.render_interface none
              w1.host).1 = false
            ∨ (cb Cmd.RETRO_ENVIRONMENT_GET_HW_RENDER_INTERFACE Shape.render_interface none
              w1.host).2.1 = none)
          → ∃ w2 : World σ, GetHWRenderInterfaceVulkan K w1 = some (none, w2)
              ∧ w2.calls = w1.calls ++ [(Cmd.RETRO_ENVIRONMENT_GET_HW_RENDER_INTERFACE,
                  ⟨Shape.render_interface, none⟩)]) := by
  refine ⟨{ w with
      host := (cb Cmd.RETRO_ENVIRONMENT_GET_HW_RENDER_INTERFACE Shape.render_interface
        w.vulkan w.host).2.2,
      calls := w.calls ++ [(Cmd.RETRO_ENVIRONMENT_GET_HW_RENDER_INTERFACE,
        ⟨Shape.render_interface, w.vulkan⟩)],
      vulkan := none }, ?_, rfl, h, rfl, rfl, ?_⟩
  · simp [GetHWRenderInterfaceVulkan, call_environ_cb, h, hok, hslot, hver]
  · intro hnone
    simp only [GetHWRenderInterfaceVulkan, call_environ_cb, h]
    rcases hnone with hf | hn
    · simp [hf]
    · simp [hn]

/-- Witness of C4: the first answer carries version 4 where 5 is expected, the second
answer succeeds without supplying a structure. -/
theorem GetHWRenderInterfaceVulkan_version_mismatch_witness :
    ∃ w1 : World Nat,
      GetHWRenderInterfaceVulkan sampleHeader
          (registered (scriptedHost [(true, some ⟨0, 4, 77⟩), (true, none)]))
        = some (none, w1)
      ∧ w1.vulkan = none
      ∧ ∃ w2 : World Nat, GetHWRenderInterfaceVulkan sampleHeader w1 = some (none, w2) :=
  match GetHWRenderInterfaceVulkan_version_mismatch sampleHeader
      (registered (scriptedHost [(true, some ⟨0, 4, 77⟩), (true, none)]))
      (scriptedHost [(true, some ⟨0, 4, 77⟩), (true, none)]) rfl ⟨0, 4, 77⟩ rfl rfl
      (by decide) with
  | ⟨w1, hcall, hreset, _, hhost, _, hnext⟩ =>
    ⟨w1, hcall, hreset,
      match hnext (Or.inr (by rw [hhost]; rfl)) with
      | ⟨w2, hcall2, _⟩ => ⟨w2, hcall2⟩⟩

/-- Counterexample to claim C5: after a call of `GetHWRenderInterfaceVulkan` has returned the
interface with handle 77, a later call in which the dispatcher fails returns null, and a
still later call in which the dispatcher supplies another structure (handle 88) returns that
other structure: the earlier result is not what later calls return. -/
theorem GetHWRenderInterfaceVulkan_not_cached :
    (GetHWRenderInterfaceVulkan sampleHeader
        (registered (scriptedHost [(true, some ⟨0, 5, 77⟩), (false, none),
          (true, some ⟨0, 5, 88⟩)]))).map Prod.fst
      = some (some ⟨0, 5, 77⟩)
    ∧ ((GetHWRenderInterfaceVulkan sampleHeader
        (registered (scriptedHost [(true, some ⟨0, 5, 77⟩), (false, none),
          (true, some ⟨0, 5, 88⟩)]))).bind
        fun r1 => (GetHWRenderInterfaceVulkan sampleHeader r1.2).map Prod.fst)
      = some none
    ∧ ((GetHWRenderInterfaceVulkan sampleHeader
        (registered (scriptedHost [(true, some ⟨0, 5, 77⟩), (false, none),
          (true, some ⟨0, 5, 88⟩)]))).bind
        fun r1 => (GetHWRenderInterfaceVulkan sampleHeader r1.2).bind
          fun r2 => (GetHWRenderInterfaceVulkan sampleHeader r2.2).map Prod.fst)
      = some (some ⟨0, 5, 88⟩) := by
  refine ⟨?_, ?_, ?_⟩ <;> rfl

/-- One call of `GetHWRenderInterfaceVulkan` from any world with a dispatcher stored: the
dispatcher is invoked once on the slot holding the current content of the static `vulkan`;
apart from the static the world is that of this one dispatch; the static then holds what the
dispatcher left in the slot, also when the dispatcher failed, unless the version check fails,
which resets it to null; and the result is the structure in the slot when the dispatcher
succeeded and the version matches, null in every other case. -/
theorem GetHWRenderInterfaceVulkan_step {σ : Type} (K : VulkanHeader) (w2 : World σ)
    (cb : retro_environment_t σ) (hcb : w2.environ_cb = some cb) :
    ∃ (res : Option retro_hw_render_interface_vulkan) (w3 : World σ),
      GetHWRenderInterfaceVulkan K w2 = some (res, w3)
      ∧ { w3 with vulkan := w2.vulkan }
          = (dispatched_once cb w2 Cmd.RETRO_ENVIRONMENT_GET_HW_RENDER_INTERFACE
              Shape.render_interface w2.vulkan).2
      ∧ ((cb Cmd.RETRO_ENVIRONMENT_GET_HW_RENDER_INTERFACE Shape.render_interface
          w2.vulkan w2.host).1 = false →
          res = none
          ∧ w3.vulkan = (cb Cmd.RETRO_ENVIRONMENT_GET_HW_RENDER_INTERFACE
              Shape.render_interface w2.vulkan w2.host).2.1)
      ∧ ((cb Cmd.RETRO_ENVIRONMENT_GET_HW_RENDER_INTERFACE Shape.render_interface
          w2.vulkan w2.host).2.1 = none → res = none ∧ w3.vulkan = none)
      ∧ (∀ v2 : retro_hw_render_interface_vulkan,
          (cb Cmd.RETRO_ENVIRONMENT_GET_HW_RENDER_INTERFACE Shape.render_interface
            w2.vulkan w2.host).1 = true →
          (cb Cmd.RETRO_ENVIRONMENT_GET_HW_RENDER_INTERFACE Shape.render_interface
            w2.vulkan w2.host).2.1 = some v2 →
          (v2.interface_version = K.RETRO_HW_RENDER_INTERFACE_VULKAN_VERSION →
            res = some v2 ∧ w3.vulkan = some v2)
          ∧ (v2.interface_version ≠ K.RETRO_HW_RENDER_INTERFACE_VULKAN_VERSION →
            res = none ∧ w3.vulkan = none)) := by
  cases hok : (cb Cmd.RETRO_ENVIRONMENT_GET_HW_RENDER_INTERFACE Shape.render_interface
      w2.vulkan w2.host).1 with
  | false =>
    refine ⟨none,
      ({ w2 with
        host := (cb Cmd.RETRO_ENVIRONMENT_GET_HW_RENDER_INTERFACE Shape.render_interface
          w2.vulkan w2.host).2.2,
        calls := w2.calls ++ [(Cmd.RETRO_ENVIRONMENT_GET_HW_RENDER_INTERFACE,
          ⟨Shape.render_interface, w2.vulkan⟩)],
        vulkan := (cb Cmd.RETRO_ENVIRONMENT_GET_HW_RENDER_INTERFACE Shape.render_interface
          w2.vulkan w2.host).2.1 } : World σ),
      ?_, rfl, ?_, ?_, ?_⟩
    · simp [GetHWRenderInterfaceVulkan, call_environ_cb, hcb, hok]
    · intro _; exact ⟨rfl, rfl⟩
    · intro hn; exact ⟨rfl, hn⟩
    · intro _ hc; cases hc
  | true =>
    cases hs : (cb Cmd.RETRO_ENVIRONMENT_GET_HW_RENDER_INTERFACE Shape.render_interface
        w2.vulkan w2.host).2.1 with
    | none =>
      refine ⟨none,
        ({ w2 with
          host := (cb Cmd.RETRO_ENVIRONMENT_GET_HW_RENDER_INTERFACE Shape.render_interface
            w2.vulkan w2.host).2.2,
          calls := w2.calls ++ [(Cmd.RETRO_ENVIRONMENT_GET_HW_RENDER_INTERFACE,
            ⟨Shape.render_interface, w2.vulkan⟩)],
          vulkan := none } : World σ),
        ?_, rfl, ?_, ?_, ?_⟩
      · simp [GetHWRenderInterfaceVulkan, call_environ_cb, hcb, hok, hs]
      · intro hc; cases hc
      · intro _; exact ⟨rfl, rfl⟩
      · intro _ _ hc; cases hc
    | some v0 =>
      by_cases hv : v0.interface_version = K.RETRO_HW_RENDER_INTERFACE_VULKAN_VERSION
      · refine ⟨some v0,
          ({ w2 with
            host := (cb Cmd.RETRO_ENVIRONMENT_GET_HW_RENDER_INTERFACE Shape.render_interface
              w2.vulkan w2.host).2.2,
            calls := w2.calls ++ [(Cmd.RETRO_ENVIRONMENT_GET_HW_RENDER_INTERFACE,
              ⟨Shape.render_interface, w2.vulkan⟩)],
            vulkan := some v0 } : World σ),
          ?_, rfl, ?_, ?_, ?_⟩
        · simp [GetHWRenderInterfaceVulkan, call_environ_cb, hcb, hok, hs, hv]
        · intro hc; cases hc
        · intro hc; cases hc
        · intro v2 _ he
          cases he
          exact ⟨fun _ => ⟨rfl, rfl⟩, fun hne => absurd hv hne⟩
      · refine ⟨none,
          ({ w2 with
            host := (cb Cmd.RETRO_ENVIRONMENT_GET_HW_RENDER_INTERFACE Shape.render_interface
              w2.vulkan w2.host).2.2,
            calls := w2.calls ++ [(Cmd.RETRO_ENVIRONMENT_GET_HW_RENDER_INTERFACE,
              ⟨Shape.render_interface, w2.vulkan⟩)],
            vulkan := none } : World σ),
          ?_, rfl, ?_, ?_, ?_⟩
        · simp [GetHWRenderInterfaceVulkan, call_environ_cb, hcb, hok, hs, hv]
        · intro hc; cases hc
        · intro hc; cases hc
        · intro v2 _ he
          cases he
          exact ⟨fun he2 => absurd he2 hv, fun _ => ⟨rfl, rfl⟩⟩

/-- Any number of calls of `GetHWRenderInterfaceVulkan` against a dispatcher that never alters
a slot holding `v`, from a world whose static holds `v` (of the expected version): every call
returns, the call returns `v` when the dispatcher succeeded and null when it failed, and the
static holds `v` after the last call. -/
theorem GetHWRenderInterfaceVulkan_calls_keep {σ : Type} (K : VulkanHeader)
    (cb : retro_environment_t σ) (v : retro_hw_render_interface_vulkan)
    (hver : v.interface_version = K.RETRO_HW_RENDER_INTERFACE_VULKAN_VERSION)
    (hkeep : ∀ s : σ, (cb Cmd.RETRO_ENVIRONMENT_GET_HW_RENDER_INTERFACE
      Shape.render_interface (some v) s).2.1 = some v) :
    ∀ (n : Nat) (w2 : World σ), w2.vulkan = some v → w2.environ_cb = some cb →
      ∃ w3 : World σ,
        GetHWRenderInterfaceVulkan_calls K n w2
          = some ((render_interface_answers cb v n w2.host).map
              (fun ok : Bool => if ok = true then some v else none), w3)
        ∧ w3.vulkan = some v ∧ w3.environ_cb = some cb := by
  intro n
  induction n with
  | zero =>
    intro w2 hstat hcb
    exact ⟨w2, rfl, hstat, hcb⟩
  | succ n ih =>
    intro w2 hstat hcb
    have hcall : GetHWRenderInterfaceVulkan K w2
        = some (if (cb Cmd.RETRO_ENVIRONMENT_GET_HW_RENDER_INTERFACE Shape.render_interface
              (some v) w2.host).1 = true then some v else none,
            ({ w2 with
              host := (cb Cmd.RETRO_ENVIRONMENT_GET_HW_RENDER_INTERFACE
                Shape.render_interface (some v) w2.host).2.2,
              calls := w2.calls ++ [(Cmd.RETRO_ENVIRONMENT_GET_HW_RENDER_INTERFACE,
                ⟨Shape.render_interface, some v⟩)],
              vulkan := some v } : World σ)) := by
      cases hok : (cb Cmd.RETRO_ENVIRONMENT_GET_HW_RENDER_INTERFACE Shape.render_interface
          (some v) w2.host).1 <;>
        simp [GetHWRenderInterfaceVulkan, call_environ_cb, hcb, hstat, hkeep w2.host, hok,
          hver]
    obtain ⟨w3, hrest, hv3, hcb3⟩ := ih
      ({ w2 with
        host := (cb Cmd.RETRO_ENVIRONMENT_GET_HW_RENDER_INTERFACE
          Shape.render_interface (some v) w2.host).2.2,
        calls := w2.calls ++ [(Cmd.RETRO_ENVIRONMENT_GET_HW_RENDER_INTERFACE,
          ⟨Shape.render_interface, some v⟩)],
        vulkan := some v } : World σ) rfl hcb
    refine ⟨w3, ?_, hv3, hcb3⟩
    simp only [GetHWRenderInterfaceVulkan_calls, hcall, hrest, render_interface_answers,
      List.map_cons]

/-- Claim C5 as amended: once a call of `GetHWRenderInterfaceVulkan` has returned a non-null
interface `v`, the static `vulkan` holds `v` (of the expected version), but no later call
returns it without asking: every call, from any world, invokes the dispatcher once on the
slot holding the current content of the static; afterwards the static holds what the
dispatcher left in the slot, also when the dispatcher failed, and null after a version
mismatch; the call returns null when the dispatcher fails or leaves the slot null, `v` itself
when the static held `v` and the dispatcher succeeds leaving the slot as it was, and otherwise
the structure left in the slot if its version is the expected one, null if it is not.
Consequently, against a dispatcher that never alters a slot holding `v`, through any number
of later calls the static keeps `v` and each call returns `v` when the dispatcher succeeded
and null when it failed. -/
theorem GetHWRenderInterfaceVulkan_requeries {σ : Type} (K : VulkanHeader) (w w1 : World σ)
    (v : retro_hw_render_interface_vulkan)
    (hfirst : GetHWRenderInterfaceVulkan K w = some (some v, w1)) :
    w1.vulkan = some v
    ∧ v.interface_version = K.RETRO_HW_RENDER_INTERFACE_VULKAN_VERSION
    ∧ w1.environ_cb = w.environ_cb
    ∧ (∀ (w2 : World σ) (cb : retro_environment_t σ), w2.environ_cb = some cb →
        ∃ (res : Option retro_hw_render_interface_vulkan) (w3 : World σ),
          GetHWRenderInterfaceVulkan K w2 = some (res, w3)
          ∧ { w3 with vulkan := w2.vulkan }
              = (dispatched_once cb w2 Cmd.RETRO_ENVIRONMENT_GET_HW_RENDER_INTERFACE
                  Shape.render_interface w2.vulkan).2
          ∧ ((cb Cmd.RETRO_ENVIRONMENT_GET_HW_RENDER_INTERFACE Shape.render_interface
              w2.vulkan w2.host).1 = false →
              res = none
              ∧ w3.vulkan = (cb Cmd.RETRO_ENVIRONMENT_GET_HW_RENDER_INTERFACE
                  Shape.render_interface w2.vulkan w2.host).2.1)
          ∧ ((cb Cmd.RETRO_ENVIRONMENT_GET_HW_RENDER_INTERFACE Shape.render_interface
              w2.vulkan w2.host).2.1 = none → res = none ∧ w3.vulkan = none)
          ∧ (w2.vulkan = some v →
              (cb Cmd.RETRO_ENVIRONMENT_GET_HW_RENDER_INTERFACE Shape.render_interface
                w2.vulkan w2.host).1 = true →
              (cb Cmd.RETRO_ENVIRONMENT_GET_HW_RENDER_INTERFACE Shape.render_interface
                w2.vulkan w2.host).2.1 = w2.vulkan →
              res = some v ∧ w3.vulkan = some v)
          ∧ (∀ v2 : retro_hw_render_interface_vulkan,
              (cb Cmd.RETRO_ENVIRONMENT_GET_HW_RENDER_INTERFACE Shape.render_interface
                w2.vulkan w2.host).1 = true →
              (cb Cmd.RETRO_ENVIRONMENT_GET_HW_RENDER_INTERFACE Shape.render_interface
                w2.vulkan w2.host).2.1 = some v2 →
              (v2.interface_version = K.RETRO_HW_RENDER_INTERFACE_VULKAN_VERSION →
                res = some v2 ∧ w3.vulkan = some v2)
              ∧ (v2.interface_version ≠ K.RETRO_HW_RENDER_INTERFACE_VULKAN_VERSION →
                res = none ∧ w3.vulkan = none)))
    ∧ (∀ cb : retro_environment_t σ, w1.environ_cb = some cb →
        (∀ s : σ, (cb Cmd.RETRO_ENVIRONMENT_GET_HW_RENDER_INTERFACE Shape.render_interface
          (some v) s).2.1 = some v) →
        ∀ n : Nat, ∃ w3 : World σ,
          GetHWRenderInterfaceVulkan_calls K n w1
            = some ((render_interface_answers cb v n w1.host).map
                (fun ok : Bool => if ok = true then some v else none), w3)
          ∧ w3.vulkan = some v) := by
  have key : w1.vulkan = some v
      ∧ v.interface_version = K.RETRO_HW_RENDER_INTERFACE_VULKAN_VERSION
      ∧ w1.environ_cb = w.environ_cb := by
    unfold GetHWRenderInterfaceVulkan call_environ_cb at hfirst
    cases hcb : w.environ_cb with
    | none => simp [hcb] at hfirst
    | some cb0 =>
      simp only [hcb] at hfirst
      cases hok : (cb0 Cmd.RETRO_ENVIRONMENT_GET_HW_RENDER_INTERFACE Shape.render_interface
          w.vulkan w.host).1 with
      | false => simp [hok] at hfirst
      | true =>
        cases hs : (cb0 Cmd.RETRO_ENVIRONMENT_GET_HW_RENDER_INTERFACE Shape.render_interface
            w.vulkan w.host).2.1 with
        | none => simp [hok, hs] at hfirst
        | some v0 =>
          by_cases hv : v0.interface_version = K.RETRO_HW_RENDER_INTERFACE_VULKAN_VERSION
          · simp [hok, hs, hv] at hfirst
            obtain ⟨hv0, hw1⟩ := hfirst
            subst hv0
            subst hw1
            exact ⟨rfl, hv, rfl⟩
          · simp [hok, hs, hv] at hfirst
  refine ⟨key.1, key.2.1, key.2.2, ?_, ?_⟩
  · intro w2 cb hcb
    obtain ⟨res, w3, hcall, hpin, hfail, hnull, hsome⟩ :=
      GetHWRenderInterfaceVulkan_step K w2 cb hcb
    refine ⟨res, w3, hcall, hpin, hfail, hnull, ?_, hsome⟩
    intro hstat hok hsame
    exact (hsome v hok (hsame.trans hstat)).1 key.2.1
  · intro cb hcb hkeep n
    obtain ⟨w3, hcalls, hv3, _⟩ :=
      GetHWRenderInterfaceVulkan_calls_keep K cb v key.2.1 hkeep n w1 key.1 hcb
    exact ⟨w3, hcalls, hv3⟩

/-- Witness of the amended C5: the first answer supplies a valid interface, the second is a
failure and the third a success, both leaving the slot alone; the two later calls return
null and then the first interface again, and the static holds it throughout. -/
theorem GetHWRenderInterfaceVulkan_requeries_witness :
    GetHWRenderInterfaceVulkan sampleHeader
        (registered (scriptedHost [(true, some ⟨0, 5, 77⟩), (false, none), (true, none)]))
      = some (some ⟨0, 5, 77⟩,
          { registered (scriptedHost [(true, some ⟨0, 5, 77⟩), (false, none), (true, none)])
            with
            host := 1,
            calls := [(Cmd.RETRO_ENVIRONMENT_GET_HW_RENDER_INTERFACE,
              ⟨Shape.render_interface, none⟩)],
            vulkan := some ⟨0, 5, 77⟩ })
    ∧ ∃ w3 : World Nat,
        GetHWRenderInterfaceVulkan_calls sampleHeader 2
            { registered (scriptedHost [(true, some ⟨0, 5, 77⟩), (false, none), (true, none)])
              with
              host := 1,
              calls := [(Cmd.RETRO_ENVIRONMENT_GET_HW_RENDER_INTERFACE,
                ⟨Shape.render_interface, none⟩)],
              vulkan := some ⟨0, 5, 77⟩ }
          = some ([none, some ⟨0, 5, 77⟩], w3)
        ∧ w3.vulkan = some ⟨0, 5, 77⟩ :=
  ⟨rfl,
    (GetHWRenderInterfaceVulkan_requeries sampleHeader
      (registered (scriptedHost [(true, some ⟨0, 5, 77⟩), (false, none), (true, none)]))
      { registered (scriptedHost [(true, some ⟨0, 5, 77⟩), (false, none), (true, none)])
        with
        host := 1,
        calls := [(Cmd.RETRO_ENVIRONMENT_GET_HW_RENDER_INTERFACE,
          ⟨Shape.render_interface, none⟩)],
        vulkan := some ⟨0, 5, 77⟩ }
      ⟨0, 5, 77⟩ rfl).2.2.2.2
      (scriptedHost [(true, some ⟨0, 5, 77⟩), (false, none), (true, none)]) rfl
      (fun s => match s with
        | 0 => rfl
        | 1 => rfl
        | 2 => rfl
        | _ + 3 => rfl)
      2⟩

/-- Claim C7: with a dispatcher stored, each of `FetchVariable`, `GetSaveDir` and
`GetSystemDir` is one invocation of it (for `FetchVariable` on a record holding the caller's
key and a null value); when the dispatcher fails, or succeeds leaving the text pointer null,
the operation returns its default (`def_`, respectively the empty string) and logs exactly
one error; otherwise it returns the text the frontend supplied and logs nothing. -/
theorem text_queries_default_on_missing {σ : Type} (key def_ : String) (w : World σ)
    (cb : retro_environment_t σ) (h : w.environ_cb = some cb) :
    (∃ (out : String) (w1 : World σ),
      FetchVariable key def_ w = some (out, w1)
      ∧ w1.calls = w.calls ++ [(Cmd.RETRO_ENVIRONMENT_GET_VARIABLE,
          ⟨Shape.variable, { key := some key, value := none }⟩)]
      ∧ w1.host = (cb Cmd.RETRO_ENVIRONMENT_GET_VARIABLE Shape.variable
          { key := some key, value := none } w.host).2.2
      ∧ (((cb Cmd.RETRO_ENVIRONMENT_GET_VARIABLE Shape.variable
              { key := some key, value := none } w.host).1 = false
            ∨ (cb Cmd.RETRO_ENVIRONMENT_GET_VARIABLE Shape.variable
              { key := some key, value := none } w.host).2.1.value = none)
          → out = def_
            ∧ w1.log = w.log ++ [LogEntry.mk LogLevel.Error
                ("Fetching variable " ++ key ++ " failed.")])
      ∧ (∀ text : String,
          (cb Cmd.RETRO_ENVIRONMENT_GET_VARIABLE Shape.variable
              { key := some key, value := none } w.host).1 = true →
          (cb Cmd.RETRO_ENVIRONMENT_GET_VARIABLE Shape.variable
              { key := some key, value := none } w.host).2.1.value = some text →
          out = text ∧ w1.log = w.log))
    ∧ (∃ (out : String) (w1 : World σ),
      GetSaveDir w = some (out, w1)
      ∧ w1.calls = w.calls ++ [(Cmd.RETRO_ENVIRONMENT_GET_SAVE_DIRECTORY,
          ⟨Shape.directory, none⟩)]
      ∧ w1.host = (cb Cmd.RETRO_ENVIRONMENT_GET_SAVE_DIRECTORY Shape.directory none w.host).2.2
      ∧ (((cb Cmd.RETRO_ENVIRONMENT_GET_SAVE_DIRECTORY Shape.directory none w.host).1 = false
            ∨ (cb Cmd.RETRO_ENVIRONMENT_GET_SAVE_DIRECTORY Shape.directory none w.host).2.1
                = none)
          → out = ""
            ∧ w1.log = w.log ++ [LogEntry.mk LogLevel.Error
                ("No save directory provided by LibRetro.")])
      ∧ (∀ text : String,
          (cb Cmd.RETRO_ENVIRONMENT_GET_SAVE_DIRECTORY Shape.directory none w.host).1 = true →
          (cb Cmd.RETRO_ENVIRONMENT_GET_SAVE_DIRECTORY Shape.directory none w.host).2.1
            = some text →
          out = text ∧ w1.log = w.log))
    ∧ (∃ (out : String) (w1 : World σ),
      GetSystemDir w = some (out, w1)
      ∧ w1.calls = w.calls ++ [(Cmd.RETRO_ENVIRONMENT_GET_SYSTEM_DIRECTORY,
          ⟨Shape.directory, none⟩)]
      ∧ w1.host = (cb Cmd.RETRO_ENVIRONMENT_GET_SYSTEM_DIRECTORY Shape.directory none
          w.host).2.2
      ∧ (((cb Cmd.RETRO_ENVIRONMENT_GET_SYSTEM_DIRECTORY Shape.directory none w.host).1 = false
            ∨ (cb Cmd.RETRO_ENVIRONMENT_GET_SYSTEM_DIRECTORY Shape.directory none w.host).2.1
                = none)
          → out = ""
            ∧ w1.log = w.log ++ [LogEntry.mk LogLevel.Error
                ("No system directory provided by LibRetro.")])
      ∧ (∀ text : String,
          (cb Cmd.RETRO_ENVIRONMENT_GET_SYSTEM_DIRECTORY Shape.directory none w.host).1 = true →
          (cb Cmd.RETRO_ENVIRONMENT_GET_SYSTEM_DIRECTORY Shape.directory none w.host).2.1
            = some text →
          out = text ∧ w1.log = w.log)) := by
  refine ⟨?_, ?_, ?_⟩
  · cases hok : (cb Cmd.RETRO_ENVIRONMENT_GET_VARIABLE Shape.variable
        { key := some key, value := none } w.host).1 with
    | false =>
      cases hval : (cb Cmd.RETRO_ENVIRONMENT_GET_VARIABLE Shape.variable
        { key := some key, value := none } w.host).2.1.value with
      | none =>
        refine ⟨def_, LOG_ERROR ("Fetching variable " ++ key ++ " failed.")
          (dispatched_once cb w Cmd.RETRO_ENVIRONMENT_GET_VARIABLE Shape.variable
          { key := some key, value := none }).2, ?_⟩
        simp [FetchVariable, call_environ_cb, dispatched_once, LOG_ERROR, h, hok, hval]
      | some text =>
        refine ⟨def_, LOG_ERROR ("Fetching variable " ++ key ++ " failed.")
          (dispatched_once cb w Cmd.RETRO_ENVIRONMENT_GET_VARIABLE Shape.variable
          { key := some key, value := none }).2, ?_⟩
        simp [FetchVariable, call_environ_cb, dispatched_once, LOG_ERROR, h, hok, hval]
    | true =>
      cases hval : (cb Cmd.RETRO_ENVIRONMENT_GET_VARIABLE Shape.variable
        { key := some key, value := none } w.host).2.1.value with
      | none =>
        refine ⟨def_, LOG_ERROR ("Fetching variable " ++ key ++ " failed.")
          (dispatched_once cb w Cmd.RETRO_ENVIRONMENT_GET_VARIABLE Shape.variable
          { key := some key, value := none }).2, ?_⟩
        simp [FetchVariable, call_environ_cb, dispatched_once, LOG_ERROR, h, hok, hval]
      | some text =>
        refine ⟨text,
          (dispatched_once cb w Cmd.RETRO_ENVIRONMENT_GET_VARIABLE Shape.variable
          { key := some key, value := none }).2, ?_⟩
        simp [FetchVariable, call_environ_cb, dispatched_once, LOG_ERROR, h, hok, hval]
  · cases hok : (cb Cmd.RETRO_ENVIRONMENT_GET_SAVE_DIRECTORY Shape.directory
        none w.host).1 with
    | false =>
      cases hval : (cb Cmd.RETRO_ENVIRONMENT_GET_SAVE_DIRECTORY Shape.directory
        none w.host).2.1 with
      | none =>
        refine ⟨"", LOG_ERROR "No save directory provided by LibRetro."
          (dispatched_once cb w Cmd.RETRO_ENVIRONMENT_GET_SAVE_DIRECTORY Shape.directory
          none).2, ?_⟩
        simp [GetSaveDir, call_environ_cb, dispatched_once, LOG_ERROR, h, hok, hval]
      | some text =>
        refine ⟨"", LOG_ERROR "No save directory provided by LibRetro."
          (dispatched_once cb w Cmd.RETRO_ENVIRONMENT_GET_SAVE_DIRECTORY Shape.directory
          none).2, ?_⟩
        simp [GetSaveDir, call_environ_cb, dispatched_once, LOG_ERROR, h, hok, hval]
    | true =>
      cases hval : (cb Cmd.RETRO_ENVIRONMENT_GET_SAVE_DIRECTORY Shape.directory
        none w.host).2.1 with
      | none =>
        refine ⟨"", LOG_ERROR "No save directory provided by LibRetro."
          (dispatched_once cb w Cmd.RETRO_ENVIRONMENT_GET_SAVE_DIRECTORY Shape.directory
          none).2, ?_⟩
        simp [GetSaveDir, call_environ_cb, dispatched_once, LOG_ERROR, h, hok, hval]
      | some text =>
        refine ⟨text,
          (dispatched_once cb w Cmd.RETRO_ENVIRONMENT_GET_SAVE_DIRECTORY Shape.directory
          none).2, ?_⟩
        simp [GetSaveDir, call_environ_cb, dispatched_once, LOG_ERROR, h, hok, hval]
        intro t ht
        exact Option.some.inj ht
  · cases hok : (cb Cmd.RETRO_ENVIRONMENT_GET_SYSTEM_DIRECTORY Shape.directory
        none w.host).1 with
    | false =>
      cases hval : (cb Cmd.RETRO_ENVIRONMENT_GET_SYSTEM_DIRECTORY Shape.directory
        none w.host).2.1 with
      | none =>
        refine ⟨"", LOG_ERROR "No system directory provided by LibRetro."
          (dispatched_once cb w Cmd.RETRO_ENVIRONMENT_GET_SYSTEM_DIRECTORY Shape.directory
          none).2, ?_⟩
        simp [GetSystemDir, call_environ_cb, dispatched_once, LOG_ERROR, h, hok, hval]
      | some text =>
        refine ⟨"", LOG_ERROR "No system directory provided by LibRetro."
          (dispatched_once cb w Cmd.RETRO_ENVIRONMENT_GET_SYSTEM_DIRECTORY Shape.directory
          none).2, ?_⟩
        simp [GetSystemDir, call_environ_cb, dispatched_once, LOG_ERROR, h, hok, hval]
    | true =>
      cases hval : (cb Cmd.RETRO_ENVIRONMENT_GET_SYSTEM_DIRECTORY Shape.directory
        none w.host).2.1 with
      | none =>
        refine ⟨"", LOG_ERROR "No system directory provided by LibRetro."
          (dispatched_once cb w Cmd.RETRO_ENVIRONMENT_GET_SYSTEM_DIRECTORY Shape.directory
          none).2, ?_⟩
        simp [GetSystemDir, call_environ_cb, dispatched_once, LOG_ERROR, h, hok, hval]
      | some text =>
        refine ⟨text,
          (dispatched_once cb w Cmd.RETRO_ENVIRONMENT_GET_SYSTEM_DIRECTORY Shape.directory
          none).2, ?_⟩
        simp [GetSystemDir, call_environ_cb, dispatched_once, LOG_ERROR, h, hok, hval]
        intro t ht
        exact Option.some.inj ht

/-- Witness of C7 at a frontend that fails the lookup: the fallback comes back and one error
is logged. -/
theorem text_queries_default_on_missing_witness :
    (registered (passiveHost false)).environ_cb = some (passiveHost false)
    ∧ ∃ (out : String) (w1 : World Nat),
      FetchVariable "missing_key" "fallback" (registered (passiveHost false)) = some (out, w1)
      ∧ out = "fallback"
      ∧ w1.log = (registered (passiveHost false)).log ++ [LogEntry.mk LogLevel.Error
                ("Fetching variable " ++ "missing_key" ++ " failed.")] :=
  ⟨rfl,
    match (text_queries_default_on_missing "missing_key" "fallback"
      (registered (passiveHost false)) (passiveHost false) rfl).1 with
    | ⟨out, w1, hcall, _, _, hmissing, _⟩ =>
      ⟨out, w1, hcall, (hmissing (Or.inl rfl)).1, (hmissing (Or.inl rfl)).2⟩⟩

/-- Claim C9, the code evaluated at a second call with other function pointers: the first
call `SetVkDeviceCallbacks(11, 12)` hands the dispatcher a record with create-device 11 and
destroy-device 12; the later call `SetVkDeviceCallbacks(21, 22)` hands it the same record
again, still holding 11 and 12, because the function-local static record is initialised by
the first call only. -/
theorem SetVkDeviceCallbacks_later_arguments_dropped :
    ((SetVkDeviceCallbacks sampleHeader 11 12 (registered (passiveHost true))).map
        fun r1 => r1.2.calls)
      = some [(Cmd.RETRO_ENVIRONMENT_SET_HW_RENDER_CONTEXT_NEGOTIATION_INTERFACE,
          ⟨Shape.negotiation,
            { interface_type := 0, interface_version := 1, get_application_info := NULL,
              create_device := 11, destroy_device := 12 }⟩)]
    ∧ ((SetVkDeviceCallbacks sampleHeader 11 12 (registered (passiveHost true))).bind
        fun r1 => (SetVkDeviceCallbacks sampleHeader 21 22 r1.2).map fun r2 => r2.2.calls)
      = some [(Cmd.RETRO_ENVIRONMENT_SET_HW_RENDER_CONTEXT_NEGOTIATION_INTERFACE,
          ⟨Shape.negotiation,
            { interface_type := 0, interface_version := 1, get_application_info := NULL,
              create_device := 11, destroy_device := 12 }⟩),
        (Cmd.RETRO_ENVIRONMENT_SET_HW_RENDER_CONTEXT_NEGOTIATION_INTERFACE,
          ⟨Shape.negotiation,
            { interface_type := 0, interface_version := 1, get_application_info := NULL,
              create_device := 11, destroy_device := 12 }⟩)] := by
  constructor <;> rfl

/-- The record handed to the dispatcher by `SetVkDeviceCallbacks` in general: one invocation
with the negotiation command; the record is built from the constants, a null third slot and
the two arguments when the static has not been initialised yet, and is the record of the
first call, whatever the arguments, once it has. -/
theorem SetVkDeviceCallbacks_record {σ : Type} (K : VulkanHeader) (create destroy : Ptr)
    (w : World σ) (cb : retro_environment_t σ) (h : w.environ_cb = some cb) :
    (w.iface = none →
      SetVkDeviceCallbacks K create destroy w
        = some (dispatched_once cb
            { w with
              iface := some
                { interface_type := K.RETRO_HW_RENDER_CONTEXT_NEGOTIATION_INTERFACE_VULKAN,
                  interface_version :=
                    K.RETRO_HW_RENDER_CONTEXT_NEGOTIATION_INTERFACE_VULKAN_VERSION,
                  get_application_info := NULL, create_device := create,
                  destroy_device := destroy } }
            Cmd.RETRO_ENVIRONMENT_SET_HW_RENDER_CONTEXT_NEGOTIATION_INTERFACE Shape.negotiation
            { interface_type := K.RETRO_HW_RENDER_CONTEXT_NEGOTIATION_INTERFACE_VULKAN,
              interface_version :=
                K.RETRO_HW_RENDER_CONTEXT_NEGOTIATION_INTERFACE_VULKAN_VERSION,
              get_application_info := NULL, create_device := create,
              destroy_device := destroy }))
    ∧ (∀ first : retro_hw_render_context_negotiation_interface_vulkan, w.iface = some first →
      SetVkDeviceCallbacks K create destroy w
        = some (dispatched_once cb w
            Cmd.RETRO_ENVIRONMENT_SET_HW_RENDER_CONTEXT_NEGOTIATION_INTERFACE Shape.negotiation
            first)) := by
  constructor
  · intro hi
    simp [SetVkDeviceCallbacks, call_environ_cb, dispatched_once, h, hi]
  · intro first hi
    simp [SetVkDeviceCallbacks, call_environ_cb, dispatched_once, h, hi]

/-- Witness of `SetVkDeviceCallbacks_record` at a first call. -/
theorem SetVkDeviceCallbacks_record_witness :
    (registered (passiveHost true)).environ_cb = some (passiveHost true)
    ∧ (registered (passiveHost true)).iface = none
    ∧ SetVkDeviceCallbacks sampleHeader 11 12 (registered (passiveHost true))
        = some (dispatched_once (passiveHost true)
            { registered (passiveHost true) with iface := some ⟨0, 1, NULL, 11, 12⟩ }
            Cmd.RETRO_ENVIRONMENT_SET_HW_RENDER_CONTEXT_NEGOTIATION_INTERFACE Shape.negotiation
            ⟨0, 1, NULL, 11, 12⟩) :=
  ⟨rfl, rfl,
    (SetVkDeviceCallbacks_record sampleHeader 11 12 (registered (passiveHost true))
      (passiveHost true) rfl).1 rfl⟩

/-- Claim C10: over any sequence of setter calls the hook `OnConfigureEnvironment` runs once
per `retro_set_environment` call and at no other time: the trace of its runs grows by exactly
the dispatchers passed by the registration calls, in order, each run seeing the dispatcher
that its own call has just stored; a sequence without a registration call adds no run; and
`retro_set_video_refresh`, `retro_set_input_poll` and `retro_set_input_state` change nothing
but their own callback pointer, `retro_set_audio_sample` nothing at all. -/
theorem hook_runs_once_per_registration {σ : Type} (hook : World σ → World σ)
    (cs : List (SetterCall σ)) (w : World σ) :
    (run_setters hook cs w).hook_runs = w.hook_runs ++ registrations cs
    ∧ (run_setters hook cs w).hook_runs.length
        = w.hook_runs.length + (registrations cs).length
    ∧ (registrations cs = [] → (run_setters hook cs w).hook_runs = w.hook_runs)
    ∧ (∀ (cb : Option (retro_environment_t σ)) (w0 : World σ),
        retro_set_environment hook cb w0
          = { hook { w0 with environ_cb := cb } with hook_runs := w0.hook_runs ++ [cb] })
    ∧ (∀ (cb : Option (retro_video_refresh_t σ)) (w0 : World σ),
        { retro_set_video_refresh cb w0 with video_cb := w0.video_cb } = w0
        ∧ (retro_set_video_refresh cb w0).video_cb = cb)
    ∧ (∀ (cb : Option (retro_input_poll_t σ)) (w0 : World σ),
        { retro_set_input_poll cb w0 with input_poll_cb := w0.input_poll_cb } = w0
        ∧ (retro_set_input_poll cb w0).input_poll_cb = cb)
    ∧ (∀ (cb : Option (retro_input_state_t σ)) (w0 : World σ),
        { retro_set_input_state cb w0 with input_state_cb := w0.input_state_cb } = w0
        ∧ (retro_set_input_state cb w0).input_state_cb = cb)
    ∧ (∀ (cb : Option (retro_audio_sample_t σ)) (w0 : World σ),
        retro_set_audio_sample cb w0 = w0) := by
  have main : ∀ (cs : List (SetterCall σ)) (w : World σ),
      (run_setters hook cs w).hook_runs = w.hook_runs ++ registrations cs := by
    intro cs
    induction cs with
    | nil => intro w; simp [run_setters, registrations]
    | cons c rest ih =>
      intro w
      cases c <;>
        simp [run_setters, registrations, ih, SetterCall.run, retro_set_environment,
          call_OnConfigureEnvironment, retro_set_video_refresh, retro_set_input_poll,
          retro_set_input_state, retro_set_audio_sample]
  refine ⟨main cs w, ?_, ?_, ?_, ?_, ?_, ?_, ?_⟩
  · rw [main cs w, List.length_append]
  · intro hnone
    rw [main cs w, hnone, List.append_nil]
  · intro cb w0; rfl
  · intro cb w0; exact ⟨rfl, rfl⟩
  · intro cb w0; exact ⟨rfl, rfl⟩
  · intro cb w0; exact ⟨rfl, rfl⟩
  · intro cb w0; rfl

/-- Witness of C10: two registrations among five setter calls give two runs of the hook, the
first seeing the first dispatcher and the second the second. -/
theorem hook_runs_once_per_registration_witness :
    (run_setters sampleHook
        [SetterCall.set_video_refresh none,
         SetterCall.set_environment (some (passiveHost true)),
         SetterCall.set_input_poll none,
         SetterCall.set_environment (some (passiveHost false)),
         SetterCall.set_audio_sample none]
        (World.init 0)).hook_runs
      = [some (passiveHost true), some (passiveHost false)] :=
  (hook_runs_once_per_registration sampleHook
    [SetterCall.set_video_refresh none,
     SetterCall.set_environment (some (passiveHost true)),
     SetterCall.set_input_poll none,
     SetterCall.set_environment (some (passiveHost false)),
     SetterCall.set_audio_sample none]
    (World.init 0)).1

end LibRetro
